import Mathlib

/-!
Shallow embedding of `src/stores/user.ts` (the Pinia user store of the
TravelFun repository) and proofs about its session-state synchronization
behaviour.

Modelling conventions:
* Browser storage (`localStorage` / `sessionStorage`) is modelled per scope
  as the two keys the store ever touches, `userInfo` and `loginStatus`,
  each holding an optional `Value`.
* A stored `Value` is either `vUser u` — the string `JSON.stringify u`,
  which `JSON.parse` turns back into `u` — or `vRaw s`, an arbitrary other
  string on which `JSON.parse` throws.  The literal flag string `'true'`
  is `vRaw "true"` (a user serialization is a JSON object and is never the
  string `true`).  JavaScript string truthiness (the empty string is falsy)
  is modelled by `Value.truthy`.
* The cookie jar is modelled as the three cookie names the store ever
  writes (`token`, `refresh_token`, `sessionid`), each an optional record
  of value, path and expiry string.  `Date.toUTCString` is modelled by the
  injective rendering `toUTCString`.
* Each external API call is modelled by a behaviour argument enumerating
  the response shapes the code distinguishes (success / failure response /
  thrown error); asynchronous operations become pure state transformers
  returning their result together with the next state.  A thrown exception
  that escapes to the caller is an `Except.error`.
-/

/-- The `UserInfo` interface of `user.ts`. -/
structure UserInfo where
  id : Int
  username : String
  email : String
  full_name : String
  avatar : Option String
  last_login : Option String
  updated_at : Option String
deriving DecidableEq

/-- A value held in browser storage: either the JSON serialization of a
user record (which parses back to it) or a raw string on which
`JSON.parse` throws. -/
inductive Value where
  | vUser (u : UserInfo)
  | vRaw (s : String)
deriving DecidableEq

/-- JavaScript truthiness of a stored string: only the empty string is
falsy; a user serialization (a nonempty JSON object string) is truthy. -/
def Value.truthy : Value → Bool
  | .vUser _ => true
  | .vRaw s => !(s == "")

/-- `JSON.parse` on a stored value: succeeds exactly on serialized user
records. -/
def jsonParse : Value → Option UserInfo
  | .vUser u => some u
  | .vRaw _ => none

/-- Truthiness of `getItem`'s result (`null` is falsy). -/
def truthyOpt : Option Value → Bool
  | none => false
  | some v => v.truthy

/-- The strict comparison `getItem('loginStatus') === 'true'`. -/
def flagIsTrue : Option Value → Bool
  | some (Value.vRaw s) => s == "true"
  | _ => false

/-- One browser-storage scope, restricted to the two keys the store
reads or writes: `userInfo` and `loginStatus`. -/
structure Scope where
  userInfo : Option Value
  loginStatus : Option Value
deriving DecidableEq

/-- A cookie as written via `document.cookie`: value, path and expiry
attribute string. -/
structure Cookie where
  value : String
  path : String
  expires : String
deriving DecidableEq

/-- The cookie jar, restricted to the three cookie names the store ever
writes. -/
structure CookieJar where
  token : Option Cookie
  refresh_token : Option Cookie
  sessionid : Option Cookie
deriving DecidableEq

/-- The full observable state of the store: the three reactive refs
(`userInfo`, `loginStatus`, `isLoading`) plus the browser state it
mutates (both storage scopes and the cookie jar). -/
structure StoreState where
  userInfo : Option UserInfo
  loginStatus : Bool
  isLoading : Bool
  localStorage : Scope
  sessionStorage : Scope
  cookies : CookieJar
deriving DecidableEq

/-- `Date.toUTCString` of a millisecond timestamp, modelled as an
injective rendering of the timestamp. -/
def toUTCString (t : Nat) : String := toString t

/-- `updateUserState` (user.ts lines 29–46): replace the in-memory user
and flag, then either write the serialized user and the string `'true'`
into both scopes (user present) or remove all four keys (user absent). -/
def updateUserState (s : StoreState) (user : Option UserInfo) (status : Bool) : StoreState :=
  let s1 : StoreState := { s with userInfo := user, loginStatus := status }
  match user with
  | some u =>
      { s1 with
        localStorage := { userInfo := some (Value.vUser u), loginStatus := some (Value.vRaw "true") }
        sessionStorage := { userInfo := some (Value.vUser u), loginStatus := some (Value.vRaw "true") } }
  | none =>
      { s1 with
        localStorage := { userInfo := none, loginStatus := none }
        sessionStorage := { userInfo := none, loginStatus := none } }

/-- The `localStorage` fallback of `initializeUserState` (user.ts lines
66–82): if the persistent keys pass the truthy/`'true'` guard, try to
parse; on success adopt the user, on a parse error remove both
persistent keys and leave memory untouched; if the guard fails, call
`updateUserState(null, false)`. -/
def initFromLocal (s : StoreState) : StoreState :=
  if truthyOpt s.localStorage.userInfo && flagIsTrue s.localStorage.loginStatus then
    match s.localStorage.userInfo with
    | some v =>
        match jsonParse v with
        | some u => updateUserState s (some u) true
        | none => { s with localStorage := { userInfo := none, loginStatus := none } }
    | none => s   -- unreachable: the guard requires a truthy (hence present) value
  else
    updateUserState s none false

/-- `initializeUserState` (user.ts lines 49–83): read the session scope
first; if its keys pass the guard and the stored user parses, adopt it
via `updateUserState` and return; otherwise (guard fails or parse
throws) fall through to the `localStorage` rule of `initFromLocal`. -/
def initializeUserState (s : StoreState) : StoreState :=
  if truthyOpt s.sessionStorage.userInfo && flagIsTrue s.sessionStorage.loginStatus then
    match s.sessionStorage.userInfo with
    | some v =>
        match jsonParse v with
        | some u => updateUserState s (some u) true
        | none => initFromLocal s
    | none => initFromLocal s   -- unreachable: the guard requires a truthy (hence present) value
  else
    initFromLocal s

/-- The argument record of `signin`. -/
structure SigninInput where
  username : String
  password : String
  rememberMe : Option Bool
deriving DecidableEq

/-- Truthiness of the optional `rememberMe` field. -/
def optTruthy : Option Bool → Bool
  | some b => b
  | none => false

/-- Truthiness of the optional `refresh` field of a sign-in response
(absent or the empty string are falsy). -/
def strTruthy : Option String → Bool
  | some s => !(s == "")
  | none => false

/-- The behaviours of `apiUserSignin` the code distinguishes: a response
with `success: true` carrying token, optional refresh token and user; a
response with `success: false`; or a thrown transport/parse error. -/
inductive SigninApiBehavior where
  | success (token : String) (refresh : Option String) (user : UserInfo)
  | failure
  | throws
deriving DecidableEq

/-- `signin` (user.ts lines 86–131): set `isLoading`, call the API.  On
`success: true` compute the cookie expiry (30 days from `now` if
`rememberMe` is truthy, else the empty string), write the `token` cookie
and — if the refresh value is truthy — the `refresh_token` cookie at
path `/`, call `updateUserState(user, true)`, force-write the session
mirror again, and return `true`.  On `success: false` return `false`.
On a thrown error rethrow it (`Except.error`).  The `finally` clause
clears `isLoading` on every path. -/
def signin (s : StoreState) (data : SigninInput) (now : Nat) (api : SigninApiBehavior) :
    Except Unit Bool × StoreState :=
  let s0 : StoreState := { s with isLoading := true }
  match api with
  | .throws => (Except.error (), { s0 with isLoading := false })
  | .failure => (Except.ok false, { s0 with isLoading := false })
  | .success token refresh user =>
      let expires : String :=
        if optTruthy data.rememberMe then toUTCString (now + 30 * 24 * 60 * 60 * 1000) else ""
      let s1 : StoreState :=
        { s0 with cookies := { s0.cookies with token := some ⟨token, "/", expires⟩ } }
      let s2 : StoreState :=
        match refresh with
        | some r =>
            if r == "" then s1
            else { s1 with cookies := { s1.cookies with refresh_token := some ⟨r, "/", expires⟩ } }
        | none => s1
      let s3 := updateUserState s2 (some user) true
      let s4 : StoreState :=
        { s3 with sessionStorage :=
            { userInfo := some (Value.vUser user), loginStatus := some (Value.vRaw "true") } }
      (Except.ok true, { s4 with isLoading := false })

/-- The behaviours of `apiUserCheckSignin` the code distinguishes: a
response carrying `success`, `isAuthenticated` and an optional `user`,
or a thrown error. -/
inductive CheckApiBehavior where
  | ok (success : Bool) (isAuthenticated : Bool) (user : Option UserInfo)
  | throws
deriving DecidableEq

/-- `checkLoginStatus` (user.ts lines 134–153): on a response, set the
flag from `isAuthenticated` and the user from the response when
`isAuthenticated && user` is truthy (else `null`), returning
`isAuthenticated`; on a thrown error set the flag to `false`, the user
to `null`, and return `false`.  Storage and cookies are never touched. -/
def checkLoginStatus (s : StoreState) (api : CheckApiBehavior) : Bool × StoreState :=
  match api with
  | .throws => (false, { s with loginStatus := false, userInfo := none })
  | .ok _ isAuthenticated user =>
      let s1 : StoreState := { s with loginStatus := isAuthenticated }
      let s2 : StoreState :=
        if isAuthenticated && user.isSome then { s1 with userInfo := user }
        else { s1 with userInfo := none }
      (isAuthenticated, s2)

/-- `setLoginStatus` (user.ts lines 156–159): direct in-memory setter;
the `user` parameter defaults to `null` at call sites that omit it. -/
def setLoginStatus (s : StoreState) (status : Bool) (user : Option UserInfo) : StoreState :=
  { s with loginStatus := status, userInfo := user }

/-- The expiry string `'Thu, 01 Jan 1970 00:00:00 GMT'` used by `logout`
to expire cookies. -/
def epochExpiry : String := "Thu, 01 Jan 1970 00:00:00 GMT"

/-- The behaviours of the fire-and-forget `apiUserLogout` call; its
outcome is swallowed by `.catch` and never affects the store. -/
inductive LogoutApiBehavior where
  | success
  | failure
  | throws
deriving DecidableEq

/-- `logout` (user.ts lines 162–189): clear the user state via
`updateUserState(null, false)`, expire the `token`, `refresh_token` and
`sessionid` cookies (empty value, epoch expiry, path `/`), fire the
logout API without awaiting it, and return `true`; the surrounding
`try/catch` returns `true` even if anything throws, so no exception
escapes. -/
def logout (s : StoreState) (api : LogoutApiBehavior) : Bool × StoreState :=
  let s1 := updateUserState s none false
  let s2 : StoreState :=
    { s1 with cookies :=
        { token := some ⟨"", "/", epochExpiry⟩
          refresh_token := some ⟨"", "/", epochExpiry⟩
          sessionid := some ⟨"", "/", epochExpiry⟩ } }
  (true, s2)

/-- The in-memory state at store construction (`ref(null)`, `ref(false)`,
`ref(false)`) over arbitrary pre-existing browser state; the constructor
then runs `initializeUserState` (user.ts line 192). -/
def initialMemState (loc ses : Scope) (ck : CookieJar) : StoreState :=
  { userInfo := none, loginStatus := false, isLoading := false,
    localStorage := loc, sessionStorage := ses, cookies := ck }

/-- A scope's data is valid for restore: the stored user value passes the
truthy guard, parses successfully, and the flag is the string `'true'`. -/
def scopeValid (sc : Scope) : Bool :=
  truthyOpt sc.userInfo && flagIsTrue sc.loginStatus &&
    (match sc.userInfo with
     | some v => (jsonParse v).isSome
     | none => false)

/-- A sample user record used by concrete witnesses. -/
def sampleUser : UserInfo :=
  { id := 1, username := "alice", email := "alice@example.com", full_name := "Alice",
    avatar := none, last_login := none, updated_at := none }

/-- An empty storage scope. -/
def emptyScope : Scope := { userInfo := none, loginStatus := none }

/-- An empty cookie jar. -/
def emptyJar : CookieJar := { token := none, refresh_token := none, sessionid := none }

/-- When the session scope's stored user is a parseable user record and
its flag is the string `'true'`, `initializeUserState` takes the session
branch and is exactly `updateUserState(user, true)`. -/
lemma initializeUserState_session_valid (s : StoreState) (u : UserInfo)
    (h1 : s.sessionStorage.userInfo = some (Value.vUser u))
    (h2 : s.sessionStorage.loginStatus = some (Value.vRaw "true")) :
    initializeUserState s = updateUserState s (some u) true := by
  unfold initializeUserState
  rw [h1, h2]
  simp [truthyOpt, Value.truthy, flagIsTrue, jsonParse]

/-- When the session scope holds no valid mirror, `initializeUserState`
falls through to the `localStorage` rule. -/
lemma initializeUserState_session_invalid (s : StoreState)
    (hs : scopeValid s.sessionStorage = false) :
    initializeUserState s = initFromLocal s := by
  unfold initializeUserState
  by_cases hg : (truthyOpt s.sessionStorage.userInfo &&
      flagIsTrue s.sessionStorage.loginStatus) = true
  · rw [if_pos hg]
    cases hv : s.sessionStorage.userInfo with
    | none => rfl
    | some v =>
        dsimp only
        cases hp : jsonParse v with
        | none => rfl
        | some u =>
            exfalso
            rw [hv] at hg
            rw [Bool.and_eq_true] at hg
            have hsv : scopeValid s.sessionStorage = true := by
              simp only [scopeValid, hv, hp, Option.isSome_some]
              simp [hg.1, hg.2]
            rw [hsv] at hs
            simp at hs
  · rw [if_neg hg]

/-- When the local scope's stored user is a parseable user record and its
flag is `'true'`, `initFromLocal` is exactly `updateUserState(user, true)`. -/
lemma initFromLocal_valid (s : StoreState) (u : UserInfo)
    (h1 : s.localStorage.userInfo = some (Value.vUser u))
    (h2 : s.localStorage.loginStatus = some (Value.vRaw "true")) :
    initFromLocal s = updateUserState s (some u) true := by
  unfold initFromLocal
  rw [h1, h2]
  simp [truthyOpt, Value.truthy, flagIsTrue, jsonParse]

/-- C1 helper is not needed; `updateUserState` reduces definitionally. -/
lemma updateUserState_some_storage (s : StoreState) (u : UserInfo) (status : Bool) :
    (updateUserState s (some u) status).localStorage
        = { userInfo := some (Value.vUser u), loginStatus := some (Value.vRaw "true") } ∧
    (updateUserState s (some u) status).sessionStorage
        = { userInfo := some (Value.vUser u), loginStatus := some (Value.vRaw "true") } :=
  ⟨rfl, rfl⟩

/-- **C1**: `updateUserState(u, status)` with `u` present writes the
serialized `u` under `userInfo` and the string `'true'` under
`loginStatus` in both scopes, whatever `status` is; with `u` absent it
removes all four keys. -/
theorem C1_updateUserState_mirrors (s : StoreState) (u : UserInfo) (status : Bool) :
    ((updateUserState s (some u) status).localStorage.userInfo = some (Value.vUser u) ∧
     (updateUserState s (some u) status).localStorage.loginStatus = some (Value.vRaw "true") ∧
     (updateUserState s (some u) status).sessionStorage.userInfo = some (Value.vUser u) ∧
     (updateUserState s (some u) status).sessionStorage.loginStatus = some (Value.vRaw "true")) ∧
    ((updateUserState s none status).localStorage.userInfo = none ∧
     (updateUserState s none status).localStorage.loginStatus = none ∧
     (updateUserState s none status).sessionStorage.userInfo = none ∧
     (updateUserState s none status).sessionStorage.loginStatus = none) :=
  ⟨⟨rfl, rfl, rfl, rfl⟩, ⟨rfl, rfl, rfl, rfl⟩⟩

/-- **C4**: a `success: false` response makes `signin` return `false` and
leave the whole prior state unchanged except that `isLoading` is back to
`false` (the in-memory user and flag, both storage scopes and the
cookies are untouched). -/
theorem C4_signin_failure_frame (s : StoreState) (data : SigninInput) (now : Nat) :
    (signin s data now SigninApiBehavior.failure).1 = Except.ok false ∧
    (signin s data now SigninApiBehavior.failure).2 = { s with isLoading := false } :=
  ⟨rfl, rfl⟩

/-- **C5**: whatever the fire-and-forget logout API does, `logout`
returns `true`, clears the in-memory user and flag, removes all four
mirror keys, and expires the `token`, `refresh_token` and `sessionid`
cookies with empty value, epoch expiry and path `/`. -/
theorem C5_logout_always_succeeds (s : StoreState) (api : LogoutApiBehavior) :
    (logout s api).1 = true ∧
    (logout s api).2.userInfo = none ∧
    (logout s api).2.loginStatus = false ∧
    (logout s api).2.localStorage = { userInfo := none, loginStatus := none } ∧
    (logout s api).2.sessionStorage = { userInfo := none, loginStatus := none } ∧
    (logout s api).2.cookies.token = some { value := "", path := "/", expires := epochExpiry } ∧
    (logout s api).2.cookies.refresh_token
        = some { value := "", path := "/", expires := epochExpiry } ∧
    (logout s api).2.cookies.sessionid
        = some { value := "", path := "/", expires := epochExpiry } :=
  ⟨rfl, rfl, rfl, rfl, rfl, rfl, rfl, rfl⟩

/-- **C6**: `checkLoginStatus` never raises: a thrown API error yields
return value `false` with `authenticated=false` and `user` absent, and
any successful response yields the response's `isAuthenticated` flag as
return value. -/
theorem C6_checkLoginStatus_total (s : StoreState) :
    ((checkLoginStatus s CheckApiBehavior.throws).1 = false ∧
     (checkLoginStatus s CheckApiBehavior.throws).2.loginStatus = false ∧
     (checkLoginStatus s CheckApiBehavior.throws).2.userInfo = none) ∧
    (∀ su isAuth user,
      (checkLoginStatus s (CheckApiBehavior.ok su isAuth user)).1 = isAuth) :=
  ⟨⟨rfl, rfl, rfl⟩, fun _ _ _ => rfl⟩

/-- **C7**: neither `checkLoginStatus` (any API behaviour) nor
`setLoginStatus` touches the storage mirrors or the cookies. -/
theorem C7_check_and_set_frame (s : StoreState) (api : CheckApiBehavior)
    (status : Bool) (user : Option UserInfo) :
    ((checkLoginStatus s api).2.localStorage = s.localStorage ∧
     (checkLoginStatus s api).2.sessionStorage = s.sessionStorage ∧
     (checkLoginStatus s api).2.cookies = s.cookies) ∧
    ((setLoginStatus s status user).localStorage = s.localStorage ∧
     (setLoginStatus s status user).sessionStorage = s.sessionStorage ∧
     (setLoginStatus s status user).cookies = s.cookies) := by
  refine ⟨?_, rfl, rfl, rfl⟩
  cases api with
  | throws => exact ⟨rfl, rfl, rfl⟩
  | ok su isAuth user =>
      unfold checkLoginStatus
      dsimp only
      split <;> exact ⟨rfl, rfl, rfl⟩

/-- **C3**: on a `success: true` response, `signin` returns `true`,
writes the `token` cookie at path `/` with a 30-days-from-now expiry
when `rememberMe` is truthy and an empty expiry string otherwise,
writes the `refresh_token` cookie under the same expiry exactly when
the response's refresh value is truthy (leaving it untouched
otherwise), and updates the in-memory state to the returned user with
the flag set, writing both storage mirrors. -/
theorem C3_signin_success (s : StoreState) (data : SigninInput) (now : Nat)
    (token : String) (refresh : Option String) (user : UserInfo) :
    (signin s data now (SigninApiBehavior.success token refresh user)).1 = Except.ok true ∧
    (signin s data now (SigninApiBehavior.success token refresh user)).2.cookies.token =
      some { value := token, path := "/",
             expires := if optTruthy data.rememberMe
                        then toUTCString (now + 30 * 24 * 60 * 60 * 1000) else "" } ∧
    (∀ rv, refresh = some rv → rv ≠ "" →
      (signin s data now (SigninApiBehavior.success token refresh user)).2.cookies.refresh_token =
        some { value := rv, path := "/",
               expires := if optTruthy data.rememberMe
                          then toUTCString (now + 30 * 24 * 60 * 60 * 1000) else "" }) ∧
    (strTruthy refresh = false →
      (signin s data now (SigninApiBehavior.success token refresh user)).2.cookies.refresh_token =
        s.cookies.refresh_token) ∧
    (signin s data now (SigninApiBehavior.success token refresh user)).2.userInfo = some user ∧
    (signin s data now (SigninApiBehavior.success token refresh user)).2.loginStatus = true ∧
    (signin s data now (SigninApiBehavior.success token refresh user)).2.localStorage =
      { userInfo := some (Value.vUser user), loginStatus := some (Value.vRaw "true") } ∧
    (signin s data now (SigninApiBehavior.success token refresh user)).2.sessionStorage =
      { userInfo := some (Value.vUser user), loginStatus := some (Value.vRaw "true") } := by
  cases refresh with
  | none => simp [signin, updateUserState, strTruthy]
  | some r =>
      by_cases hr : r = ""
      · subst hr
        simp [signin, updateUserState, strTruthy]
      · simp [signin, updateUserState, strTruthy, hr]

/-- The sign-in input used by concrete witnesses (`rememberMe` set). -/
def rememberInput : SigninInput :=
  { username := "alice", password := "pw", rememberMe := some true }

/-- A construction-time state with empty browser storage. -/
def blankState : StoreState := initialMemState emptyScope emptyScope emptyJar

/-- Witness for C3 at a concrete input: a successful remember-me sign-in
with a refresh token writes both cookies and returns `true`. -/
theorem C3_signin_success_witness :
    (signin blankState rememberInput 0
        (SigninApiBehavior.success "tok" (some "ref") sampleUser)).1 = Except.ok true ∧
    (signin blankState rememberInput 0
        (SigninApiBehavior.success "tok" (some "ref") sampleUser)).2.cookies.refresh_token =
      some { value := "ref", path := "/",
             expires := toUTCString (0 + 30 * 24 * 60 * 60 * 1000) } ∧
    (signin blankState rememberInput 0
        (SigninApiBehavior.success "tok" (some "ref") sampleUser)).2.userInfo = some sampleUser :=
  ⟨(C3_signin_success blankState rememberInput 0 "tok" (some "ref") sampleUser).1,
   (C3_signin_success blankState rememberInput 0 "tok" (some "ref") sampleUser).2.2.1
      "ref" rfl (by decide),
   (C3_signin_success blankState rememberInput 0 "tok" (some "ref") sampleUser).2.2.2.2.1⟩

/-- When the construction-time memory is empty and the local scope holds
no valid mirror, `initFromLocal` ends with no user and a cleared flag
(either via `updateUserState(null, false)` or by leaving the empty
memory untouched after discarding malformed data). -/
lemma initFromLocal_invalid_mem (s : StoreState) (h0 : s.userInfo = none)
    (h1 : s.loginStatus = false) (hl : scopeValid s.localStorage = false) :
    (initFromLocal s).userInfo = none ∧ (initFromLocal s).loginStatus = false := by
  unfold initFromLocal
  by_cases hg : (truthyOpt s.localStorage.userInfo && flagIsTrue s.localStorage.loginStatus) = true
  · rw [if_pos hg]
    cases hv : s.localStorage.userInfo with
    | none => exact ⟨h0, h1⟩
    | some v =>
        dsimp only
        cases hp : jsonParse v with
        | none => exact ⟨h0, h1⟩
        | some u =>
            exfalso
            rw [hv] at hg
            rw [Bool.and_eq_true] at hg
            have hlv : scopeValid s.localStorage = true := by
              simp only [scopeValid, hv, hp, Option.isSome_some]
              simp [hg.1, hg.2]
            rw [hlv] at hl
            simp at hl
  · rw [if_neg hg]
    exact ⟨rfl, rfl⟩

/-- **C2**: starting from the construction-time memory, restoration
prefers the session scope: valid session data is adopted (flag set,
user present) with a result independent of the persistent scope's
content; only when the session scope is invalid does the same rule
apply to the persistent scope; when neither is valid the final state is
no user, flag cleared. -/
theorem C2_initialize_prefers_session (s : StoreState)
    (h0 : s.userInfo = none) (h1 : s.loginStatus = false) :
    (∀ u, s.sessionStorage.userInfo = some (Value.vUser u) →
       s.sessionStorage.loginStatus = some (Value.vRaw "true") →
       ((initializeUserState s).userInfo = some u ∧
        (initializeUserState s).loginStatus = true ∧
        ∀ loc, initializeUserState { s with localStorage := loc } = initializeUserState s)) ∧
    (scopeValid s.sessionStorage = false →
       ∀ u, s.localStorage.userInfo = some (Value.vUser u) →
         s.localStorage.loginStatus = some (Value.vRaw "true") →
         (initializeUserState s).userInfo = some u ∧
         (initializeUserState s).loginStatus = true) ∧
    (scopeValid s.sessionStorage = false → scopeValid s.localStorage = false →
       (initializeUserState s).userInfo = none ∧
       (initializeUserState s).loginStatus = false) := by
  refine ⟨?_, ?_, ?_⟩
  · intro u hu hf
    refine ⟨?_, ?_, ?_⟩
    · rw [initializeUserState_session_valid s u hu hf]
      rfl
    · rw [initializeUserState_session_valid s u hu hf]
      rfl
    · intro loc
      rw [initializeUserState_session_valid { s with localStorage := loc } u hu hf,
          initializeUserState_session_valid s u hu hf]
      rfl
  · intro hs u hu hf
    rw [initializeUserState_session_invalid s hs, initFromLocal_valid s u hu hf]
    exact ⟨rfl, rfl⟩
  · intro hs hl
    rw [initializeUserState_session_invalid s hs]
    exact initFromLocal_invalid_mem s h0 h1 hl

/-- A construction-time state whose session scope holds a valid mirror
and whose persistent scope is empty. -/
def sessionOnlyState : StoreState :=
  { userInfo := none, loginStatus := false, isLoading := false,
    localStorage := emptyScope,
    sessionStorage := { userInfo := some (Value.vUser sampleUser),
                        loginStatus := some (Value.vRaw "true") },
    cookies := emptyJar }

/-- Witness for C2 at a concrete input: valid session data is adopted. -/
theorem C2_initialize_prefers_session_witness :
    sessionOnlyState.userInfo = none ∧ sessionOnlyState.loginStatus = false ∧
    (initializeUserState sessionOnlyState).userInfo = some sampleUser ∧
    (initializeUserState sessionOnlyState).loginStatus = true :=
  ⟨rfl, rfl,
   ((C2_initialize_prefers_session sessionOnlyState rfl rfl).1 sampleUser rfl rfl).1,
   ((C2_initialize_prefers_session sessionOnlyState rfl rfl).1 sampleUser rfl rfl).2.1⟩

/-- **C9**: when the session scope holds no valid mirror and the
persistent scope holds a nonempty `userInfo` string that does not
parse, together with the flag `'true'`, `initializeUserState` removes
both persistent-scope keys and ends with no user and a cleared flag
(starting from the construction-time memory); no exception is raised
(the operation is total). -/
theorem C9_malformed_persistent_discarded (s : StoreState)
    (h0 : s.userInfo = none) (h1 : s.loginStatus = false)
    (hs : scopeValid s.sessionStorage = false)
    (raw : String) (hraw : raw ≠ "")
    (hl1 : s.localStorage.userInfo = some (Value.vRaw raw))
    (hl2 : s.localStorage.loginStatus = some (Value.vRaw "true")) :
    (initializeUserState s).localStorage.userInfo = none ∧
    (initializeUserState s).localStorage.loginStatus = none ∧
    (initializeUserState s).userInfo = none ∧
    (initializeUserState s).loginStatus = false := by
  rw [initializeUserState_session_invalid s hs]
  unfold initFromLocal
  rw [hl1, hl2]
  simp [truthyOpt, Value.truthy, flagIsTrue, jsonParse, hraw, h0, h1]

/-- A construction-time state whose persistent scope holds a malformed
user string with the flag set, and whose session scope is empty. -/
def malformedLocalState : StoreState :=
  { userInfo := none, loginStatus := false, isLoading := false,
    localStorage := { userInfo := some (Value.vRaw "oops"),
                      loginStatus := some (Value.vRaw "true") },
    sessionStorage := emptyScope,
    cookies := emptyJar }

/-- Witness for C9 at a concrete input: malformed persistent data is
discarded and the state stays unauthenticated. -/
theorem C9_malformed_persistent_discarded_witness :
    scopeValid malformedLocalState.sessionStorage = false ∧
    malformedLocalState.localStorage.userInfo = some (Value.vRaw "oops") ∧
    (initializeUserState malformedLocalState).localStorage.userInfo = none ∧
    (initializeUserState malformedLocalState).localStorage.loginStatus = none ∧
    (initializeUserState malformedLocalState).userInfo = none ∧
    (initializeUserState malformedLocalState).loginStatus = false :=
  ⟨rfl, rfl,
   (C9_malformed_persistent_discarded malformedLocalState rfl rfl rfl "oops"
      (by decide) rfl rfl).1,
   (C9_malformed_persistent_discarded malformedLocalState rfl rfl rfl "oops"
      (by decide) rfl rfl).2.1,
   (C9_malformed_persistent_discarded malformedLocalState rfl rfl rfl "oops"
      (by decide) rfl rfl).2.2.1,
   (C9_malformed_persistent_discarded malformedLocalState rfl rfl rfl "oops"
      (by decide) rfl rfl).2.2.2⟩

/-- **C10**: a restore that succeeds from the session scope routes
through `updateUserState`, which also writes the record and the
`'true'` flag into the persistent scope — promoting a session-only
session to one that survives a browser restart. -/
theorem C10_session_restore_promotes (s : StoreState) (u : UserInfo)
    (h1 : s.sessionStorage.userInfo = some (Value.vUser u))
    (h2 : s.sessionStorage.loginStatus = some (Value.vRaw "true")) :
    (initializeUserState s).localStorage.userInfo = some (Value.vUser u) ∧
    (initializeUserState s).localStorage.loginStatus = some (Value.vRaw "true") ∧
    (initializeUserState s).userInfo = some u ∧
    (initializeUserState s).loginStatus = true := by
  rw [initializeUserState_session_valid s u h1 h2]
  exact ⟨rfl, rfl, rfl, rfl⟩

/-- Witness for C10 at a concrete input: a session-only mirror is copied
into the (previously empty) persistent scope. -/
theorem C10_session_restore_promotes_witness :
    sessionOnlyState.localStorage.userInfo = none ∧
    sessionOnlyState.sessionStorage.userInfo = some (Value.vUser sampleUser) ∧
    (initializeUserState sessionOnlyState).localStorage.userInfo
        = some (Value.vUser sampleUser) ∧
    (initializeUserState sessionOnlyState).localStorage.loginStatus
        = some (Value.vRaw "true") :=
  ⟨rfl, rfl,
   (C10_session_restore_promotes sessionOnlyState sampleUser rfl rfl).1,
   (C10_session_restore_promotes sessionOnlyState sampleUser rfl rfl).2.1⟩

/-- The §3 invariant of the spec: the flag being set implies a present
user record. -/
def MemInvariant (s : StoreState) : Prop :=
  s.loginStatus = true → s.userInfo.isSome = true

/-- `updateUserState` establishes the invariant whenever its arguments
are consistent (a set status comes with a present user). -/
lemma memInvariant_updateUserState (s : StoreState) (user : Option UserInfo) (status : Bool)
    (h : status = true → user.isSome = true) :
    MemInvariant (updateUserState s user status) := by
  cases user with
  | some u => intro _; rfl
  | none => intro hst; exact h hst

/-- `initFromLocal` preserves the invariant. -/
lemma memInvariant_initFromLocal (s : StoreState) (h : MemInvariant s) :
    MemInvariant (initFromLocal s) := by
  unfold initFromLocal
  by_cases hg : (truthyOpt s.localStorage.userInfo && flagIsTrue s.localStorage.loginStatus) = true
  · rw [if_pos hg]
    cases hv : s.localStorage.userInfo with
    | none => exact h
    | some v =>
        dsimp only
        cases hp : jsonParse v with
        | none => exact h
        | some u => exact memInvariant_updateUserState s (some u) true (fun _ => rfl)
  · rw [if_neg hg]
    exact memInvariant_updateUserState s none false (fun hst => absurd hst (by decide))

/-- `initializeUserState` preserves the invariant. -/
lemma memInvariant_initializeUserState (s : StoreState) (h : MemInvariant s) :
    MemInvariant (initializeUserState s) := by
  unfold initializeUserState
  by_cases hg : (truthyOpt s.sessionStorage.userInfo &&
      flagIsTrue s.sessionStorage.loginStatus) = true
  · rw [if_pos hg]
    cases hv : s.sessionStorage.userInfo with
    | none => exact memInvariant_initFromLocal s h
    | some v =>
        dsimp only
        cases hp : jsonParse v with
        | none => exact memInvariant_initFromLocal s h
        | some u => exact memInvariant_updateUserState s (some u) true (fun _ => rfl)
  · rw [if_neg hg]
    exact memInvariant_initFromLocal s h

/-- `signin` preserves the invariant for every API behaviour. -/
lemma memInvariant_signin (s : StoreState) (data : SigninInput) (now : Nat)
    (api : SigninApiBehavior) (h : MemInvariant s) :
    MemInvariant (signin s data now api).2 := by
  cases api with
  | throws => exact h
  | failure => exact h
  | success token refresh user => intro _; rfl

/-- `logout` establishes the invariant (the flag ends cleared). -/
lemma memInvariant_logout (s : StoreState) (api : LogoutApiBehavior) :
    MemInvariant (logout s api).2 := by
  intro hst
  simp [logout, updateUserState] at hst

/-- A session-check response is consistent when it carries a user
whenever it reports an authenticated session; a thrown error is
trivially consistent. -/
def checkRespConsistent : CheckApiBehavior → Prop
  | CheckApiBehavior.ok _ isAuthenticated user => isAuthenticated = true → user.isSome = true
  | CheckApiBehavior.throws => True

/-- `checkLoginStatus` preserves the invariant when the response is
consistent. -/
lemma memInvariant_checkLoginStatus (s : StoreState) (api : CheckApiBehavior)
    (h : MemInvariant s) (hc : checkRespConsistent api) :
    MemInvariant (checkLoginStatus s api).2 := by
  cases api with
  | throws => intro hst; simp [checkLoginStatus] at hst
  | ok su isAuthenticated user =>
      unfold checkLoginStatus
      dsimp only
      by_cases hgu : (isAuthenticated && user.isSome) = true
      · rw [if_pos hgu]
        intro _
        rw [Bool.and_eq_true] at hgu
        exact hgu.2
      · rw [if_neg hgu]
        intro hst
        exfalso
        have hA : isAuthenticated = true := hst
        exact hgu (by rw [hA, hc hA]; rfl)

/-- States reachable by the store's public operations with arbitrary
arguments and API behaviours, starting from construction (empty memory,
arbitrary browser state, then `initializeUserState`). -/
inductive ReachableAll : StoreState → Prop where
  | start (loc ses : Scope) (ck : CookieJar) :
      ReachableAll (initializeUserState (initialMemState loc ses ck))
  | stepSignin (s : StoreState) (data : SigninInput) (now : Nat) (api : SigninApiBehavior)
      (hr : ReachableAll s) : ReachableAll (signin s data now api).2
  | stepLogout (s : StoreState) (api : LogoutApiBehavior)
      (hr : ReachableAll s) : ReachableAll (logout s api).2
  | stepCheck (s : StoreState) (api : CheckApiBehavior)
      (hr : ReachableAll s) : ReachableAll (checkLoginStatus s api).2
  | stepSetLogin (s : StoreState) (status : Bool) (user : Option UserInfo)
      (hr : ReachableAll s) : ReachableAll (setLoginStatus s status user)
  | stepUpdate (s : StoreState) (user : Option UserInfo) (status : Bool)
      (hr : ReachableAll s) : ReachableAll (updateUserState s user status)
  | stepInit (s : StoreState) (hr : ReachableAll s) :
      ReachableAll (initializeUserState s)

/-- States reachable as in `ReachableAll`, but where every
`setLoginStatus` and `updateUserState` call supplies a present user
whenever its status argument is set, and every session-check response
is consistent. -/
inductive ReachableSafe : StoreState → Prop where
  | start (loc ses : Scope) (ck : CookieJar) :
      ReachableSafe (initializeUserState (initialMemState loc ses ck))
  | stepSignin (s : StoreState) (data : SigninInput) (now : Nat) (api : SigninApiBehavior)
      (hr : ReachableSafe s) : ReachableSafe (signin s data now api).2
  | stepLogout (s : StoreState) (api : LogoutApiBehavior)
      (hr : ReachableSafe s) : ReachableSafe (logout s api).2
  | stepCheck (s : StoreState) (api : CheckApiBehavior) (hc : checkRespConsistent api)
      (hr : ReachableSafe s) : ReachableSafe (checkLoginStatus s api).2
  | stepSetLogin (s : StoreState) (status : Bool) (user : Option UserInfo)
      (hcond : status = true → user.isSome = true)
      (hr : ReachableSafe s) : ReachableSafe (setLoginStatus s status user)
  | stepUpdate (s : StoreState) (user : Option UserInfo) (status : Bool)
      (hcond : status = true → user.isSome = true)
      (hr : ReachableSafe s) : ReachableSafe (updateUserState s user status)
  | stepInit (s : StoreState) (hr : ReachableSafe s) :
      ReachableSafe (initializeUserState s)

/-- The state produced by calling `setLoginStatus(true)` (with its
default absent user) right after construction over empty storage. -/
def violatingState : StoreState :=
  setLoginStatus (initializeUserState (initialMemState emptyScope emptyScope emptyJar))
    true none

/-- **C8, counterexample**: a reachable state with the flag set and no
user record — one `setLoginStatus(true)` call (its `user` parameter
defaulting to `null`) breaks the claimed invariant. -/
theorem C8_invariant_counterexample :
    ReachableAll violatingState ∧
    violatingState.loginStatus = true ∧ violatingState.userInfo = none :=
  ⟨ReachableAll.stepSetLogin _ true none
      (ReachableAll.start emptyScope emptyScope emptyJar),
   rfl, rfl⟩

/-- **C8, amended**: the invariant `authenticated = true → user present`
holds in every reachable state provided every `setLoginStatus` and
`updateUserState` call supplies a present user whenever its status is
set, and every session-check response carries a user whenever it
reports an authenticated session; `signin`, `logout` and
`initializeUserState` need no side condition. -/
theorem C8_invariant_amended (s : StoreState) (h : ReachableSafe s) :
    s.loginStatus = true → s.userInfo.isSome = true := by
  induction h with
  | start loc ses ck =>
      refine memInvariant_initializeUserState _ ?_
      intro hst
      simp [initialMemState] at hst
  | stepSignin s data now api hr ih => exact memInvariant_signin s data now api ih
  | stepLogout s api hr ih => exact memInvariant_logout s api
  | stepCheck s api hc hr ih => exact memInvariant_checkLoginStatus s api ih hc
  | stepSetLogin s status user hcond hr ih => exact hcond
  | stepUpdate s user status hcond hr ih =>
      exact memInvariant_updateUserState s user status hcond
  | stepInit s hr ih => exact memInvariant_initializeUserState s ih

/-- Witness for the amended C8 at a concrete reachable state. -/
theorem C8_invariant_amended_witness :
    ReachableSafe (initializeUserState (initialMemState emptyScope emptyScope emptyJar)) ∧
    ((initializeUserState (initialMemState emptyScope emptyScope emptyJar)).loginStatus = true →
      (initializeUserState
          (initialMemState emptyScope emptyScope emptyJar)).userInfo.isSome = true) :=
  ⟨ReachableSafe.start emptyScope emptyScope emptyJar,
   C8_invariant_amended _ (ReachableSafe.start emptyScope emptyScope emptyJar)⟩
